import Mathlib

/-
  Verification development for the rose.opengl kernel module
  (src/unnamed/part_000 of the repository, module rose.opengl.kernel).

  The module is a resource-acquisition layer over OpenGL.  Every
  acquisition function interacts with the ambient GL context through a
  fixed sequence of backend calls; here each function is embedded as a
  pure Lean function from an explicit backend oracle (the values the
  backend returns at each call site) and the parameter record to a pair
  of (result, trace), where the trace is the chronological list of
  backend calls issued, destructor-driven calls included.

  Machine integers: GLuint is a 32-bit unsigned, GLsizei a 32-bit
  signed, GLsizeiptr a 64-bit signed, size_t a 64-bit unsigned.  Casts
  that appear in the source are written out with explicit modular
  reductions; values proved to stay in range make them vanish.
-/

namespace Rose

/-- GL constants (numeric values from GL/glew.h) used by the module. -/
def GL_NO_ERROR : Nat := 0

/-- GL_TEXTURE_2D = 0x0DE1. -/
def GL_TEXTURE_2D : Nat := 3553

/-- GL_FRAMEBUFFER = 0x8D40. -/
def GL_FRAMEBUFFER : Nat := 36160

/-- GL_FRAMEBUFFER_COMPLETE = 0x8CD5. -/
def GL_FRAMEBUFFER_COMPLETE : Nat := 36053

/-- GL_COLOR_ATTACHMENT0 = 0x8CE0. -/
def GL_COLOR_ATTACHMENT0 : Nat := 36064

/-- GL_DEPTH_ATTACHMENT = 0x8D00. -/
def GL_DEPTH_ATTACHMENT : Nat := 36096

/-- GL_VERTEX_SHADER = 0x8B31. -/
def GL_VERTEX_SHADER : Nat := 35633

/-- GL_FRAGMENT_SHADER = 0x8B30. -/
def GL_FRAGMENT_SHADER : Nat := 35632

----------------------------------------------------------------------------
-- Generic object definition (template <void Deleter(GLuint)> struct object).
----------------------------------------------------------------------------

/-- The generic ownership wrapper: holds a GLuint handle, 0 is the
sentinel meaning "no resource".  The bound deleter is abstracted: what
matters is the list of handles it is invoked on. -/
structure object where
  handle : Nat
deriving DecidableEq, Repr

/-- Destructor of object: calls the bound Deleter on the held handle
exactly when it is non-zero.  The returned list is the list of deleter
invocations (arguments passed to Deleter), in order. -/
def object.destruct (o : object) : List Nat :=
  if o.handle ≠ 0 then [o.handle] else []

/-- Move constructor object(object&& other):
handle is initialized with std::exchange(other.handle, 0).
Returns (the newly constructed object, the moved-from source). -/
def object.moveCtor (other : object) : object × object :=
  (⟨other.handle⟩, ⟨0⟩)

/-- Move assignment (operator=(object other), called as a = std::move(b)
for distinct objects a and b): the by-value parameter other is
move-constructed from b, then std::swap(this->handle, other.handle),
then other is destroyed at end of the call.
Returns (new a, new b, deleter invocations from destroying other). -/
def object.moveAssign (a b : object) : object × object × List Nat :=
  let other := (object.moveCtor b).1
  let b1 := (object.moveCtor b).2
  let a1 : object := ⟨other.handle⟩
  let other1 : object := ⟨a.handle⟩
  (a1, b1, other1.destruct)

/-- Move assignment in the self-assignment case a = std::move(a): the
parameter other is move-constructed from a itself (leaving a.handle = 0),
then the swap runs against the same object.
Returns (new a, deleter invocations from destroying other). -/
def object.moveAssignSelf (a : object) : object × List Nat :=
  let other := (object.moveCtor a).1
  let a1 := (object.moveCtor a).2
  let a2 : object := ⟨other.handle⟩
  let other1 : object := ⟨a1.handle⟩
  (a2, other1.destruct)

----------------------------------------------------------------------------
-- Error record (struct error { long long line, code; }).
----------------------------------------------------------------------------

/-- Failure record: source line marker and backend error code. -/
structure error where
  line : Int
  code : Int
deriving DecidableEq, Repr

----------------------------------------------------------------------------
-- Backend call events.
----------------------------------------------------------------------------

/-- One backend (OpenGL) call, as recorded in a trace.  Error-flag polls
(glGetError / discard_errors) are pure queries and are not recorded. -/
inductive Event where
  | genBuffers (id : Nat)
  | deleteBuffers (id : Nat)
  | bindBuffer (type : Nat) (id : Nat)
  | bufferData (type : Nat) (size : Nat) (usage : Nat)
  | genTextures (id : Nat)
  | deleteTextures (id : Nat)
  | bindTexture (id : Nat)
  | texImage2D (level : Nat) (width : Nat) (height : Nat)
      (dataNull : Bool) (offset : Nat)
  | genFramebuffers (id : Nat)
  | deleteFramebuffers (id : Nat)
  | bindFramebuffer (id : Nat)
  | framebufferTexture2D (attachment : Nat) (tex : Nat)
  | createShader (type : Nat) (ret : Nat)
  | shaderSource (id : Nat)
  | compileShader (id : Nat)
  | deleteShader (id : Nat)
  | createProgram (ret : Nat)
  | attachShader (prog : Nat) (sh : Nat)
  | linkProgram (id : Nat)
  | deleteProgram (id : Nat)
deriving DecidableEq, Repr

----------------------------------------------------------------------------
-- C1 / C5: handle-ownership theorems.
----------------------------------------------------------------------------

/-- C1: for every handle object, destruction invokes the bound deleter
exactly once when the held identifier is non-zero and never when it is
zero; a move-constructed-from handle holds the sentinel afterward, so
destroying both the source and the new object releases the original
identifier at most once (exactly once when it was non-zero). -/
theorem C1_single_release (h : Nat) :
    (object.destruct ⟨h⟩ = if h = 0 then [] else [h]) ∧
    ((object.moveCtor ⟨h⟩).2.handle = 0) ∧
    ((object.moveCtor ⟨h⟩).1.handle = h) ∧
    (List.count h
        ((object.moveCtor ⟨h⟩).2.destruct ++ (object.moveCtor ⟨h⟩).1.destruct)
      = if h = 0 then 0 else 1) := by
  by_cases h0 : h = 0 <;>
    simp [object.destruct, object.moveCtor, h0]

/-- C5: move-assignment a = move(b) behaves as a swap: a ends up owning
b's prior identifier, b is left holding the sentinel, and a's prior
identifier goes into the destroyed temporary, which releases it exactly
when it is non-zero (so no owned resource is dropped without a release
call); under self-reassignment a keeps its identifier and nothing is
released. -/
theorem C5_move_assignment_swap (ha hb : Nat) :
    ((object.moveAssign ⟨ha⟩ ⟨hb⟩).1 = ⟨hb⟩) ∧
    ((object.moveAssign ⟨ha⟩ ⟨hb⟩).2.1 = ⟨0⟩) ∧
    ((object.moveAssign ⟨ha⟩ ⟨hb⟩).2.2 = if ha = 0 then [] else [ha]) ∧
    ((object.moveAssignSelf ⟨ha⟩).1 = ⟨ha⟩) ∧
    ((object.moveAssignSelf ⟨ha⟩).2 = []) := by
  by_cases h0 : ha = 0 <;>
    simp [object.moveAssign, object.moveAssignSelf, object.moveCtor,
      object.destruct, h0]

----------------------------------------------------------------------------
-- Machine-integer casts appearing in the source.
----------------------------------------------------------------------------

/-- static_cast<GLsizeiptr>(n) for a size_t value n: reduce modulo 2^64
and reinterpret as a signed 64-bit value. -/
def static_cast_GLsizeiptr (n : Nat) : Int :=
  if n % 2 ^ 64 < 2 ^ 63 then ((n % 2 ^ 64 : Nat) : Int)
  else ((n % 2 ^ 64 : Nat) : Int) - 2 ^ 64

/-- static_cast<size_t>(i) for a signed 64-bit value i: reinterpret as
unsigned 64-bit. -/
def static_cast_size_t (i : Int) : Nat :=
  (i % (2 ^ 64 : Int)).toNat

----------------------------------------------------------------------------
-- Buffer acquisition (initialize(buffer_parameters)).
----------------------------------------------------------------------------

/-- Buffer initialization parameters.  The byte span is represented by
its length (its contents never influence control flow). -/
structure buffer_parameters where
  type : Nat
  usage : Nat
  bytes_len : Nat
deriving DecidableEq, Repr

/-- Backend oracle for one buffer acquisition: the name written by
glGenBuffers, the glGetError value polled after it, and the glGetError
value polled after glBufferData. -/
structure buffer_backend where
  gen_id : Nat
  gen_error : Nat
  data_error : Nat
deriving DecidableEq, Repr

/-- initialize(buffer_parameters) from the source, as (result, trace):
size check with the two casts; glGenBuffers + error check; scope guard
that rebinds the target to 0 on every later exit; glBindBuffer +
glBufferData + error check.  On error paths the local buffer object is
destroyed (deleting the generated name if non-zero) after the guard has
unbound the target; on success the result is moved out and only the
guard runs. -/
def initialize_buffer (b : buffer_backend) (p : buffer_parameters) :
    Except error object × List Event :=
  let size := static_cast_GLsizeiptr p.bytes_len
  if size ≤ 0 ∨ static_cast_size_t size ≠ p.bytes_len then
    (Except.error ⟨125, 0⟩, [])
  else
    let result : object := ⟨b.gen_id⟩
    if b.gen_error ≠ GL_NO_ERROR then
      (Except.error ⟨134, (b.gen_error : Int)⟩,
        Event.genBuffers b.gen_id :: result.destruct.map Event.deleteBuffers)
    else
      let pre := [Event.genBuffers b.gen_id,
                  Event.bindBuffer p.type b.gen_id,
                  Event.bufferData p.type size.toNat p.usage]
      if b.data_error ≠ GL_NO_ERROR then
        (Except.error ⟨153, (b.data_error : Int)⟩,
          pre ++ [Event.bindBuffer p.type 0]
              ++ result.destruct.map Event.deleteBuffers)
      else
        (Except.ok result, pre ++ [Event.bindBuffer p.type 0])

----------------------------------------------------------------------------
-- C6 / C10: buffer size validation.
----------------------------------------------------------------------------

/-- C6: a byte span whose length does not fit in GLsizeiptr without
truncation (length at least 2^63) is rejected with the local validation
failure (line 125, code 0) and an empty trace: no backend
name-generation call occurs. -/
theorem C6_oversized_span (b : buffer_backend) (p : buffer_parameters)
    (hlen : 2 ^ 63 ≤ p.bytes_len) :
    initialize_buffer b p = (Except.error ⟨125, 0⟩, []) := by
  have hcond : static_cast_GLsizeiptr p.bytes_len ≤ 0 ∨
      static_cast_size_t (static_cast_GLsizeiptr p.bytes_len) ≠ p.bytes_len := by
    simp only [static_cast_GLsizeiptr, static_cast_size_t]
    split_ifs with hc <;> omega
  unfold initialize_buffer
  rw [if_pos hcond]

/-- Witness for C6 at the concrete length 2^63. -/
theorem C6_oversized_span_witness :
    initialize_buffer ⟨1, 0, 0⟩ ⟨1, 1, 2 ^ 63⟩ = (Except.error ⟨125, 0⟩, []) :=
  C6_oversized_span ⟨1, 0, 0⟩ ⟨1, 1, 2 ^ 63⟩ (Nat.le_refl _)

/-- C10: the empty byte span (length 0) is also rejected by the same
size check (size <= 0 catches size = 0): local validation failure with
line 125 and code 0, and no name-generation call, although an empty
length trivially fits the signed size type. -/
theorem C10_empty_span_rejected (b : buffer_backend) (t u : Nat) :
    initialize_buffer b ⟨t, u, 0⟩ = (Except.error ⟨125, 0⟩, []) := by
  unfold initialize_buffer
  rw [if_pos]
  left
  simp [static_cast_GLsizeiptr]

----------------------------------------------------------------------------
-- Texture acquisition (initialize(texture_parameters)).
----------------------------------------------------------------------------

/-- Texture initialization parameters: GLsizei (signed) width, height
and mipmap count, and the pixel span represented by its length. -/
structure texture_parameters where
  width : Int
  height : Int
  mipmap_count : Int
  pixels_len : Nat
deriving DecidableEq, Repr

/-- Backend oracle for one texture acquisition: the name written by
glGenTextures, the glGetError values polled after generation, after the
bind, and after the upload of each mipmap level. -/
structure texture_backend where
  gen_id : Nat
  gen_error : Nat
  bind_error : Nat
  level_error : Nat → Nat

/-- The mipmap upload loop of initialize(texture_parameters), from the
source.  Arguments: per-level error oracle, remaining iteration count,
current level index i, current width and height, current pixel-span
start offset and remaining length.  At each level: size = width*height*4
(int arithmetic; within the validated range it cannot overflow); the
data pointer is null iff static_cast<GLuint>(size) exceeds the remaining
span length; after the upload the span advances by
std::min(remaining, static_cast<size_t>(size)) and both extents become
std::max(1, extent / 2).  A non-clean error poll aborts the walk. -/
def specify_texture_data (lb : Nat → Nat) :
    Nat → Nat → Nat → Nat → Nat → Nat → Option error × List Event
  | 0, _, _, _, _, _ => (none, [])
  | fuel + 1, i, w, h, off, rem =>
    let size := w * h * 4
    let ev := Event.texImage2D i w h (decide (size % 2 ^ 32 > rem)) off
    if lb i ≠ GL_NO_ERROR then
      (some ⟨245, (lb i : Int)⟩, [ev])
    else
      let consumed := min rem (size % 2 ^ 64)
      let rest := specify_texture_data lb fuel (i + 1)
        (max 1 (w / 2)) (max 1 (h / 2)) (off + consumed) (rem - consumed)
      (rest.1, ev :: rest.2)

/-- initialize(texture_parameters) from the source, as (result, trace):
range validation of width, height and mipmap count (each must lie
strictly between 0 and 16384); glGenTextures + error check; scope guard
rebinding GL_TEXTURE_2D to 0 on every later exit; glBindTexture + error
check; the mipmap upload loop; on error paths the local texture object
is destroyed after the guard has unbound the target. -/
def initialize_texture (b : texture_backend) (p : texture_parameters) :
    Except error object × List Event :=
  if (p.width ≤ 0 ∨ p.width ≥ 16384) ∨ (p.height ≤ 0 ∨ p.height ≥ 16384) ∨
      (p.mipmap_count ≤ 0 ∨ p.mipmap_count ≥ 16384) then
    (Except.error ⟨201, 0⟩, [])
  else
    let result : object := ⟨b.gen_id⟩
    if b.gen_error ≠ GL_NO_ERROR then
      (Except.error ⟨210, (b.gen_error : Int)⟩,
        Event.genTextures b.gen_id :: result.destruct.map Event.deleteTextures)
    else
      let pre := [Event.genTextures b.gen_id, Event.bindTexture b.gen_id]
      if b.bind_error ≠ GL_NO_ERROR then
        (Except.error ⟨225, (b.bind_error : Int)⟩,
          pre ++ [Event.bindTexture 0]
              ++ result.destruct.map Event.deleteTextures)
      else
        let walk := specify_texture_data b.level_error p.mipmap_count.toNat 0
          p.width.toNat p.height.toNat 0 p.pixels_len
        match walk.1 with
        | some e =>
          (Except.error e,
            pre ++ walk.2 ++ [Event.bindTexture 0]
                ++ result.destruct.map Event.deleteTextures)
        | none =>
          (Except.ok result, pre ++ walk.2 ++ [Event.bindTexture 0])

/-- The mip chain walk as the specification describes it, for
comparison with the walk extracted from the source: at each level i the
byte size is width*height*4 (no casts); the level gets a null data
pointer exactly when that size exceeds the remaining span length and
otherwise the span's leading bytes (start offset off); the span then
advances by min(size, remaining); the next extents are the floor-halves
of the current ones clamped below at 1. -/
def mip_events_spec : Nat → Nat → Nat → Nat → Nat → Nat → List Event
  | 0, _, _, _, _, _ => []
  | n + 1, i, w, h, off, rem =>
    Event.texImage2D i w h (decide (w * h * 4 > rem)) off ::
      mip_events_spec n (i + 1) (max 1 (w / 2)) (max 1 (h / 2))
        (off + min (w * h * 4) rem) (rem - min (w * h * 4) rem)

/-- With both extents bounded by 16383 (the validated range, preserved
by halving), the source's mip walk with a clean backend produces exactly
the specification's per-level schedule: the machine-integer casts never
truncate. -/
theorem specify_texture_data_clean (lb : Nat → Nat)
    (hlb : ∀ j, lb j = GL_NO_ERROR) :
    ∀ (n i w h off rem : Nat), w ≤ 16383 → h ≤ 16383 →
      specify_texture_data lb n i w h off rem
        = (none, mip_events_spec n i w h off rem) := by
  intro n
  induction n with
  | zero => intro i w h off rem _ _; rfl
  | succ n ih =>
    intro i w h off rem hw hh
    have hsize : w * h * 4 < 2 ^ 32 := by
      have h1 : w * h * 4 ≤ 16383 * 16383 * 4 :=
        Nat.mul_le_mul (Nat.mul_le_mul hw hh) (Nat.le_refl 4)
      omega
    have h32 : w * h * 4 % 2 ^ 32 = w * h * 4 := Nat.mod_eq_of_lt hsize
    have h64 : w * h * 4 % 2 ^ 64 = w * h * 4 :=
      Nat.mod_eq_of_lt (by omega)
    have hw' : max 1 (w / 2) ≤ 16383 := by omega
    have hh' : max 1 (h / 2) ≤ 16383 := by omega
    simp only [specify_texture_data, mip_events_spec, hlb i, GL_NO_ERROR,
      ne_eq, not_true_eq_false, if_false, h32, h64,
      ih (i + 1) (max 1 (w / 2)) (max 1 (h / 2)) _ _ hw' hh']
    rw [Nat.min_comm]

/-- C3: for every validated texture parameter set and every pixel span,
the source's mip chain walk realizes the specified schedule (level byte
size width*height*4; null data exactly when the size exceeds the
remaining length, otherwise the span's leading bytes; advance by
min(size, remaining); floor-halved extents clamped at 1); moreover the
full acquisition on a clean backend succeeds with trace gen, bind, the
walk, unbind; concretely 256x256 with 4 mipmaps and data for level 0
only gives extents 256, 128, 64, 32 with levels 1-3 null, and 1x1 with
3 mipmaps stays 1x1 at every level. -/
theorem C3_mip_chain (b : texture_backend) (p : texture_parameters)
    (hlb : ∀ j, b.level_error j = GL_NO_ERROR)
    (hgen : b.gen_error = GL_NO_ERROR) (hbind : b.bind_error = GL_NO_ERROR)
    (hw1 : 0 < p.width) (hw2 : p.width < 16384)
    (hh1 : 0 < p.height) (hh2 : p.height < 16384)
    (hn1 : 0 < p.mipmap_count) (hn2 : p.mipmap_count < 16384) :
    initialize_texture b p
      = (Except.ok ⟨b.gen_id⟩,
          [Event.genTextures b.gen_id, Event.bindTexture b.gen_id]
            ++ mip_events_spec p.mipmap_count.toNat 0
                p.width.toNat p.height.toNat 0 p.pixels_len
            ++ [Event.bindTexture 0]) ∧
    initialize_texture ⟨1, 0, 0, fun _ => 0⟩ ⟨256, 256, 4, 262144⟩
      = (Except.ok ⟨1⟩,
          [Event.genTextures 1, Event.bindTexture 1,
           Event.texImage2D 0 256 256 false 0,
           Event.texImage2D 1 128 128 true 262144,
           Event.texImage2D 2 64 64 true 262144,
           Event.texImage2D 3 32 32 true 262144,
           Event.bindTexture 0]) ∧
    initialize_texture ⟨1, 0, 0, fun _ => 0⟩ ⟨1, 1, 3, 12⟩
      = (Except.ok ⟨1⟩,
          [Event.genTextures 1, Event.bindTexture 1,
           Event.texImage2D 0 1 1 false 0,
           Event.texImage2D 1 1 1 false 4,
           Event.texImage2D 2 1 1 false 8,
           Event.bindTexture 0]) := by
  refine ⟨?_, by rfl, by rfl⟩
  have hwn : p.width.toNat ≤ 16383 := by omega
  have hhn : p.height.toNat ≤ 16383 := by omega
  have hvalid : ¬ ((p.width ≤ 0 ∨ p.width ≥ 16384) ∨
      (p.height ≤ 0 ∨ p.height ≥ 16384) ∨
      (p.mipmap_count ≤ 0 ∨ p.mipmap_count ≥ 16384)) := by omega
  unfold initialize_texture
  rw [if_neg hvalid]
  simp only [hgen, GL_NO_ERROR, ne_eq, not_true_eq_false, if_false, hbind,
    specify_texture_data_clean b.level_error hlb p.mipmap_count.toNat 0
      p.width.toNat p.height.toNat 0 p.pixels_len hwn hhn]

/-- Witness for C3 at width 256, height 256, 4 mipmaps, clean backend. -/
theorem C3_mip_chain_witness :
    initialize_texture ⟨1, 0, 0, fun _ => 0⟩ ⟨256, 256, 4, 262144⟩
      = (Except.ok ⟨1⟩,
          [Event.genTextures 1, Event.bindTexture 1]
            ++ mip_events_spec 4 0 256 256 0 262144
            ++ [Event.bindTexture 0]) :=
  (C3_mip_chain ⟨1, 0, 0, fun _ => 0⟩ ⟨256, 256, 4, 262144⟩
    (fun _ => rfl) rfl rfl (by norm_num) (by norm_num) (by norm_num)
    (by norm_num) (by norm_num) (by norm_num)).1

----------------------------------------------------------------------------
-- Framebuffer acquisition (initialize(framebuffer_parameters)).
----------------------------------------------------------------------------

/-- Framebuffer initialization parameters: the color sub-resource
(render_target) and depth sub-resource (depth_buffer) texture names;
0 means absent. -/
structure framebuffer_parameters where
  render_target : Nat
  depth_buffer : Nat
deriving DecidableEq, Repr

/-- Backend oracle for one framebuffer acquisition: the name written by
glGenFramebuffers, the glGetError value after generation, the
glCheckFramebufferStatus result, and the final glGetError value. -/
structure framebuffer_backend where
  gen_id : Nat
  gen_error : Nat
  status : Nat
  final_error : Nat
deriving DecidableEq, Repr

/-- initialize(framebuffer_parameters) from the source, as (result,
trace): no local parameter validation; glGenFramebuffers + error check;
scope guard rebinding GL_FRAMEBUFFER to 0 on every later exit;
glBindFramebuffer; conditional attachment of the color and depth
sub-resources (each only when its handle is non-zero); completeness
check (a status other than GL_FRAMEBUFFER_COMPLETE is returned as the
error code); final error-flag check. -/
def initialize_framebuffer (b : framebuffer_backend)
    (p : framebuffer_parameters) : Except error object × List Event :=
  let result : object := ⟨b.gen_id⟩
  if b.gen_error ≠ GL_NO_ERROR then
    (Except.error ⟨301, (b.gen_error : Int)⟩,
      Event.genFramebuffers b.gen_id
        :: result.destruct.map Event.deleteFramebuffers)
  else
    let attach :=
      (if p.render_target ≠ 0 then
        [Event.framebufferTexture2D GL_COLOR_ATTACHMENT0 p.render_target]
      else []) ++
      (if p.depth_buffer ≠ 0 then
        [Event.framebufferTexture2D GL_DEPTH_ATTACHMENT p.depth_buffer]
      else [])
    let pre := Event.genFramebuffers b.gen_id
      :: Event.bindFramebuffer b.gen_id :: attach
    if b.status ≠ GL_FRAMEBUFFER_COMPLETE then
      (Except.error ⟨329, (b.status : Int)⟩,
        pre ++ [Event.bindFramebuffer 0]
            ++ result.destruct.map Event.deleteFramebuffers)
    else if b.final_error ≠ GL_NO_ERROR then
      (Except.error ⟨334, (b.final_error : Int)⟩,
        pre ++ [Event.bindFramebuffer 0]
            ++ result.destruct.map Event.deleteFramebuffers)
    else
      (Except.ok result, pre ++ [Event.bindFramebuffer 0])

----------------------------------------------------------------------------
-- C7 / C8: framebuffer edge case and completeness failure.
----------------------------------------------------------------------------

/-- C7: both sub-resources absent (render_target = depth_buffer = 0) is
never rejected locally: the trace always starts with the
name-generation call; every possible failure is backend-reported (lines
301, 329, 334, the gen / completeness / error-flag sites); and with a
clean backend reporting a complete status the acquisition succeeds with
no attachment calls. -/
theorem C7_absent_attachments_legal (b : framebuffer_backend) :
    ((initialize_framebuffer b ⟨0, 0⟩).2.head? = some
        (Event.genFramebuffers b.gen_id)) ∧
    (∀ e tr, initialize_framebuffer b ⟨0, 0⟩ = (Except.error e, tr) →
      e.line = 301 ∨ e.line = 329 ∨ e.line = 334) ∧
    (b.gen_error = GL_NO_ERROR → b.status = GL_FRAMEBUFFER_COMPLETE →
      b.final_error = GL_NO_ERROR →
      initialize_framebuffer b ⟨0, 0⟩
        = (Except.ok ⟨b.gen_id⟩,
            [Event.genFramebuffers b.gen_id, Event.bindFramebuffer b.gen_id,
             Event.bindFramebuffer 0])) := by
  unfold initialize_framebuffer
  refine ⟨?_, ?_, ?_⟩
  · split_ifs <;> rfl
  · intro e tr
    split_ifs <;> intro hyp <;> simp_all <;>
      obtain ⟨rfl, -⟩ := hyp <;> simp
  · intro h1 h2 h3
    simp [h1, h2, h3]

/-- Witness for C7 with a clean backend. -/
theorem C7_absent_attachments_legal_witness :
    initialize_framebuffer ⟨1, 0, GL_FRAMEBUFFER_COMPLETE, 0⟩ ⟨0, 0⟩
      = (Except.ok ⟨1⟩,
          [Event.genFramebuffers 1, Event.bindFramebuffer 1,
           Event.bindFramebuffer 0]) :=
  (C7_absent_attachments_legal ⟨1, 0, GL_FRAMEBUFFER_COMPLETE, 0⟩).2.2
    rfl rfl rfl

/-- C8: whenever name generation succeeds but the completeness query
reports a status other than GL_FRAMEBUFFER_COMPLETE, the function fails
at the status-check site (line 329) with the reported status value as
the error code. -/
theorem C8_incomplete_status_code (b : framebuffer_backend)
    (p : framebuffer_parameters) (hgen : b.gen_error = GL_NO_ERROR)
    (hst : b.status ≠ GL_FRAMEBUFFER_COMPLETE) :
    (initialize_framebuffer b p).1 = Except.error ⟨329, (b.status : Int)⟩ := by
  unfold initialize_framebuffer
  simp [hgen, hst]

/-- Witness for C8: a color attachment alone with the backend reporting
GL_FRAMEBUFFER_INCOMPLETE_ATTACHMENT (0x8CD6 = 36054): the failure
carries 36054, not the generic zero. -/
theorem C8_incomplete_status_code_witness :
    (initialize_framebuffer ⟨1, 0, 36054, 0⟩ ⟨5, 0⟩).1
      = Except.error ⟨329, 36054⟩ :=
  C8_incomplete_status_code ⟨1, 0, 36054, 0⟩ ⟨5, 0⟩ rfl (by decide)

----------------------------------------------------------------------------
-- Shader acquisition (initialize(shader_parameters)).
----------------------------------------------------------------------------

/-- Shader initialization parameters: stage kind and borrowed source
text.  The source text never influences control flow in this layer (the
compiler's reaction to it is part of the backend oracle). -/
structure shader_parameters where
  type : Nat
  code : String
deriving DecidableEq, Repr

/-- Backend oracle for one shader acquisition: the glCreateShader
result (0 on failure), the GL_COMPILE_STATUS query result, and the
glGetError value polled at the end. -/
structure shader_backend where
  create_id : Nat
  compile_ok : Bool
  error_code : Nat
deriving DecidableEq, Repr

/-- initialize(shader_parameters) from the source, as (result, trace):
glCreateShader (0 result is a local validation failure, line 378, code
0); glShaderSource + glCompileShader; compile-status query (failure is
line 388, code 0, and the local shader object is destroyed, deleting
the created name); final error-flag check (line 394). -/
def initialize_shader (b : shader_backend) (p : shader_parameters) :
    Except error object × List Event :=
  let result : object := ⟨b.create_id⟩
  if b.create_id = 0 then
    (Except.error ⟨378, 0⟩, [Event.createShader p.type b.create_id])
  else
    let pre := [Event.createShader p.type b.create_id,
                Event.shaderSource b.create_id,
                Event.compileShader b.create_id]
    if ¬ b.compile_ok then
      (Except.error ⟨388, 0⟩, pre ++ result.destruct.map Event.deleteShader)
    else if b.error_code ≠ GL_NO_ERROR then
      (Except.error ⟨394, (b.error_code : Int)⟩,
        pre ++ result.destruct.map Event.deleteShader)
    else
      (Except.ok result, pre)

----------------------------------------------------------------------------
-- Program acquisition (initialize(program_parameters)).
----------------------------------------------------------------------------

/-- Program initialization parameters: the two stage source texts
(field codes of the source struct, flattened). -/
structure program_parameters where
  vertex_shader_code : String
  fragment_shader_code : String
deriving DecidableEq, Repr

/-- Backend oracle for one program acquisition: the oracles of the two
shader sub-acquisitions, the glCreateProgram result, the
GL_LINK_STATUS query result, and the final glGetError value. -/
structure program_backend where
  vertex_backend : shader_backend
  fragment_backend : shader_backend
  create_id : Nat
  link_ok : Bool
  error_code : Nat

/-- initialize(program_parameters) from the source, as (result, trace):
vertex-stage shader acquisition, with its failure record forwarded
unchanged; then the fragment stage likewise; glCreateProgram (0 is a
local failure, line 452); glAttachShader twice + glLinkProgram;
link-status query (failure is line 463, code 0); final error-flag check
(line 469).  Locals are destroyed in reverse construction order on
every return: the program object (on paths where it is not moved out),
then the fragment shader, then the vertex shader; destroying a shader
with a non-zero handle issues glDeleteShader on it. -/
def initialize_program (b : program_backend) (p : program_parameters) :
    Except error object × List Event :=
  match initialize_shader b.vertex_backend
      ⟨GL_VERTEX_SHADER, p.vertex_shader_code⟩ with
  | (Except.error e, vtr) => (Except.error e, vtr)
  | (Except.ok vsh, vtr) =>
    match initialize_shader b.fragment_backend
        ⟨GL_FRAGMENT_SHADER, p.fragment_shader_code⟩ with
    | (Except.error e, ftr) =>
      (Except.error e, vtr ++ ftr ++ vsh.destruct.map Event.deleteShader)
    | (Except.ok fsh, ftr) =>
      let result : object := ⟨b.create_id⟩
      let cleanup := fsh.destruct.map Event.deleteShader
        ++ vsh.destruct.map Event.deleteShader
      if b.create_id = 0 then
        (Except.error ⟨452, 0⟩,
          vtr ++ ftr ++ [Event.createProgram b.create_id] ++ cleanup)
      else
        let pre := vtr ++ ftr ++
          [Event.createProgram b.create_id,
           Event.attachShader b.create_id vsh.handle,
           Event.attachShader b.create_id fsh.handle,
           Event.linkProgram b.create_id]
        if ¬ b.link_ok then
          (Except.error ⟨463, 0⟩,
            pre ++ result.destruct.map Event.deleteProgram ++ cleanup)
        else if b.error_code ≠ GL_NO_ERROR then
          (Except.error ⟨469, (b.error_code : Int)⟩,
            pre ++ result.destruct.map Event.deleteProgram ++ cleanup)
        else
          (Except.ok result, pre ++ cleanup)

/-- A successful shader acquisition returns the created name, which is
necessarily non-zero, with the three-call trace. -/
theorem initialize_shader_ok_inv (b : shader_backend) (p : shader_parameters)
    (o : object) (tr : List Event)
    (h : initialize_shader b p = (Except.ok o, tr)) :
    o = ⟨b.create_id⟩ ∧ b.create_id ≠ 0 ∧
      tr = [Event.createShader p.type b.create_id,
            Event.shaderSource b.create_id,
            Event.compileShader b.create_id] := by
  unfold initialize_shader at h
  split_ifs at h <;> simp_all

/-- Every createShader call issued by a shader acquisition carries the
requested stage kind. -/
theorem initialize_shader_stage (b : shader_backend) (p : shader_parameters)
    (ty ret : Nat)
    (h : Event.createShader ty ret ∈ (initialize_shader b p).2) :
    ty = p.type := by
  unfold initialize_shader at h
  split_ifs at h <;> simp_all [object.destruct]

/-- Recognizer for glDeleteShader events in a trace. -/
def is_delete_shader : Event → Bool
  | Event.deleteShader _ => true
  | _ => false

/-- C2: (1) if the vertex stage fails, program acquisition returns the
vertex failure record with exactly the vertex-stage trace, and no
createShader call for the fragment stage ever occurs; (2) if the vertex
stage succeeds and the fragment stage fails, the fragment failure
record is returned unchanged and the vertex shader's deleter
(glDeleteShader on its handle) runs before the function returns, as the
last call of the trace. -/
theorem C2_program_composition (b : program_backend)
    (p : program_parameters) :
    (∀ e tr,
      initialize_shader b.vertex_backend
          ⟨GL_VERTEX_SHADER, p.vertex_shader_code⟩ = (Except.error e, tr) →
      initialize_program b p = (Except.error e, tr) ∧
      ∀ ret, Event.createShader GL_FRAGMENT_SHADER ret
        ∉ (initialize_program b p).2) ∧
    (∀ vid vtr e ftr,
      initialize_shader b.vertex_backend
          ⟨GL_VERTEX_SHADER, p.vertex_shader_code⟩ = (Except.ok ⟨vid⟩, vtr) →
      initialize_shader b.fragment_backend
          ⟨GL_FRAGMENT_SHADER, p.fragment_shader_code⟩ = (Except.error e, ftr) →
      initialize_program b p
        = (Except.error e, vtr ++ ftr ++ [Event.deleteShader vid])) := by
  constructor
  · intro e tr hv
    have hprog : initialize_program b p = (Except.error e, tr) := by
      simp only [initialize_program, hv]
    refine ⟨hprog, ?_⟩
    intro ret hmem
    rw [hprog] at hmem
    have htr : (initialize_shader b.vertex_backend
        ⟨GL_VERTEX_SHADER, p.vertex_shader_code⟩).2 = tr := by rw [hv]
    rw [← htr] at hmem
    have := initialize_shader_stage _ _ _ _ hmem
    simp [GL_FRAGMENT_SHADER, GL_VERTEX_SHADER] at this
  · intro vid vtr e ftr hv hf
    obtain ⟨ho, hvid, -⟩ := initialize_shader_ok_inv _ _ _ _ hv
    have hvid' : vid ≠ 0 := by
      have := congrArg object.handle ho
      simp only at this
      omega
    simp only [initialize_program, hv, hf]
    simp [object.destruct, hvid']

/-- Witness for C2: vertex creation failure forwards the vertex record
with no fragment createShader call; vertex success followed by fragment
compile-status failure forwards the fragment record with the vertex
shader deleted last. -/
theorem C2_program_composition_witness :
    (initialize_program ⟨⟨0, true, 0⟩, ⟨9, true, 0⟩, 3, true, 0⟩ ⟨"", ""⟩
      = (Except.error ⟨378, 0⟩, [Event.createShader GL_VERTEX_SHADER 0])) ∧
    (initialize_program ⟨⟨7, true, 0⟩, ⟨9, false, 0⟩, 3, true, 0⟩ ⟨"", ""⟩
      = (Except.error ⟨388, 0⟩,
          [Event.createShader GL_VERTEX_SHADER 7, Event.shaderSource 7,
           Event.compileShader 7,
           Event.createShader GL_FRAGMENT_SHADER 9, Event.shaderSource 9,
           Event.compileShader 9, Event.deleteShader 9,
           Event.deleteShader 7])) :=
  ⟨((C2_program_composition ⟨⟨0, true, 0⟩, ⟨9, true, 0⟩, 3, true, 0⟩
      ⟨"", ""⟩).1 ⟨378, 0⟩ [Event.createShader GL_VERTEX_SHADER 0] rfl).1,
   (C2_program_composition ⟨⟨7, true, 0⟩, ⟨9, false, 0⟩, 3, true, 0⟩
      ⟨"", ""⟩).2 7 _ ⟨388, 0⟩ _ rfl rfl⟩

/-- C9: once both shader stages have been acquired, program acquisition
releases both shader handles before returning, in every outcome
(program-creation failure, link-status failure, final error-flag
failure, or success): the trace ends with glDeleteShader on the
fragment handle then on the vertex handle, and contains exactly two
glDeleteShader calls. -/
theorem C9_shaders_released (b : program_backend) (p : program_parameters)
    (vid fid : Nat) (vtr ftr : List Event)
    (hv : initialize_shader b.vertex_backend
      ⟨GL_VERTEX_SHADER, p.vertex_shader_code⟩ = (Except.ok ⟨vid⟩, vtr))
    (hf : initialize_shader b.fragment_backend
      ⟨GL_FRAGMENT_SHADER, p.fragment_shader_code⟩ = (Except.ok ⟨fid⟩, ftr)) :
    (∃ tr0, (initialize_program b p).2
        = tr0 ++ [Event.deleteShader fid, Event.deleteShader vid]) ∧
    (initialize_program b p).2.countP is_delete_shader = 2 := by
  obtain ⟨hov, hvid, hvtr⟩ := initialize_shader_ok_inv _ _ _ _ hv
  obtain ⟨hof, hfid, hftr⟩ := initialize_shader_ok_inv _ _ _ _ hf
  have hvid' : vid ≠ 0 := by
    have := congrArg object.handle hov
    simp only at this
    omega
  have hfid' : fid ≠ 0 := by
    have := congrArg object.handle hof
    simp only at this
    omega
  simp only [initialize_program, hv, hf]
  subst hvtr hftr
  by_cases h1 : b.create_id = 0
  · simp only [h1, if_pos rfl]
    constructor
    · refine ⟨[Event.createShader GL_VERTEX_SHADER b.vertex_backend.create_id,
        Event.shaderSource b.vertex_backend.create_id,
        Event.compileShader b.vertex_backend.create_id,
        Event.createShader GL_FRAGMENT_SHADER b.fragment_backend.create_id,
        Event.shaderSource b.fragment_backend.create_id,
        Event.compileShader b.fragment_backend.create_id,
        Event.createProgram 0], ?_⟩
      simp [object.destruct, hvid', hfid']
    · simp [object.destruct, hvid', hfid', is_delete_shader,
        List.countP_append, List.countP_cons]
  · rw [if_neg h1]
    by_cases h2 : b.link_ok
    · by_cases h3 : b.error_code = GL_NO_ERROR
      · simp only [h2, not_true_eq_false, if_false, h3, ne_eq,
          not_true_eq_false]
        constructor
        · refine ⟨[Event.createShader GL_VERTEX_SHADER
              b.vertex_backend.create_id,
            Event.shaderSource b.vertex_backend.create_id,
            Event.compileShader b.vertex_backend.create_id,
            Event.createShader GL_FRAGMENT_SHADER
              b.fragment_backend.create_id,
            Event.shaderSource b.fragment_backend.create_id,
            Event.compileShader b.fragment_backend.create_id,
            Event.createProgram b.create_id,
            Event.attachShader b.create_id vid,
            Event.attachShader b.create_id fid,
            Event.linkProgram b.create_id], ?_⟩
          simp [object.destruct, hvid', hfid']
        · simp [object.destruct, hvid', hfid', is_delete_shader,
            List.countP_append, List.countP_cons]
      · simp only [h2, not_true_eq_false, if_false, h3, ne_eq,
          not_false_eq_true, if_true]
        constructor
        · refine ⟨[Event.createShader GL_VERTEX_SHADER
              b.vertex_backend.create_id,
            Event.shaderSource b.vertex_backend.create_id,
            Event.compileShader b.vertex_backend.create_id,
            Event.createShader GL_FRAGMENT_SHADER
              b.fragment_backend.create_id,
            Event.shaderSource b.fragment_backend.create_id,
            Event.compileShader b.fragment_backend.create_id,
            Event.createProgram b.create_id,
            Event.attachShader b.create_id vid,
            Event.attachShader b.create_id fid,
            Event.linkProgram b.create_id,
            Event.deleteProgram b.create_id], ?_⟩
          simp [object.destruct, hvid', hfid', h1]
        · simp [object.destruct, hvid', hfid', h1, is_delete_shader,
            List.countP_append, List.countP_cons]
    · simp only [h2, not_false_eq_true, if_true]
      constructor
      · refine ⟨[Event.createShader GL_VERTEX_SHADER
            b.vertex_backend.create_id,
          Event.shaderSource b.vertex_backend.create_id,
          Event.compileShader b.vertex_backend.create_id,
          Event.createShader GL_FRAGMENT_SHADER
            b.fragment_backend.create_id,
          Event.shaderSource b.fragment_backend.create_id,
          Event.compileShader b.fragment_backend.create_id,
          Event.createProgram b.create_id,
          Event.attachShader b.create_id vid,
          Event.attachShader b.create_id fid,
          Event.linkProgram b.create_id,
          Event.deleteProgram b.create_id], ?_⟩
        simp [object.destruct, hvid', hfid', h1]
      · simp [object.destruct, hvid', hfid', h1, is_delete_shader,
          List.countP_append, List.countP_cons]

/-- Witness for C9 on a fully clean backend (link success): the trace
ends with the two shader deletions and holds exactly two. -/
theorem C9_shaders_released_witness :
    (∃ tr0, (initialize_program ⟨⟨7, true, 0⟩, ⟨9, true, 0⟩, 3, true, 0⟩
        ⟨"", ""⟩).2
      = tr0 ++ [Event.deleteShader 9, Event.deleteShader 7]) ∧
    (initialize_program ⟨⟨7, true, 0⟩, ⟨9, true, 0⟩, 3, true, 0⟩
        ⟨"", ""⟩).2.countP is_delete_shader = 2 :=
  C9_shaders_released ⟨⟨7, true, 0⟩, ⟨9, true, 0⟩, 3, true, 0⟩ ⟨"", ""⟩
    7 9 _ _ rfl rfl

----------------------------------------------------------------------------
-- Binding-point state reconstructed from a trace (for C4).
----------------------------------------------------------------------------

/-- Effect of one event on the buffer binding point of a given target:
glBindBuffer(target, id) sets it, everything else leaves it. -/
def buffer_binding_step (target : Nat) (acc : Option Nat) : Event → Option Nat
  | Event.bindBuffer t id => if t = target then some id else acc
  | _ => acc

/-- The buffer binding point of a target after a trace ran (none when
the target was never bound). -/
def buffer_binding (target : Nat) (evs : List Event) : Option Nat :=
  evs.foldl (buffer_binding_step target) none

/-- Effect of one event on the GL_TEXTURE_2D binding point. -/
def texture_binding_step (acc : Option Nat) : Event → Option Nat
  | Event.bindTexture id => some id
  | _ => acc

/-- The GL_TEXTURE_2D binding point after a trace ran. -/
def texture_binding (evs : List Event) : Option Nat :=
  evs.foldl texture_binding_step none

/-- Effect of one event on the GL_FRAMEBUFFER binding point. -/
def framebuffer_binding_step (acc : Option Nat) : Event → Option Nat
  | Event.bindFramebuffer id => some id
  | _ => acc

/-- The GL_FRAMEBUFFER binding point after a trace ran. -/
def framebuffer_binding (evs : List Event) : Option Nat :=
  evs.foldl framebuffer_binding_step none

/-- Deletion calls do not change the buffer binding point. -/
theorem buffer_binding_step_deletes (target : Nat) (acc : Option Nat)
    (l : List Nat) :
    List.foldl (buffer_binding_step target) acc (l.map Event.deleteBuffers)
      = acc := by
  induction l generalizing acc with
  | nil => rfl
  | cons x xs ih => simpa [buffer_binding_step] using ih acc

/-- Deletion calls do not change the texture binding point. -/
theorem texture_binding_step_deletes (acc : Option Nat) (l : List Nat) :
    List.foldl texture_binding_step acc (l.map Event.deleteTextures) = acc := by
  induction l generalizing acc with
  | nil => rfl
  | cons x xs ih => simpa [texture_binding_step] using ih acc

/-- The mipmap upload loop never touches the texture binding point. -/
theorem texture_binding_step_walk (lb : Nat → Nat) :
    ∀ (n i w h off rem : Nat) (acc : Option Nat),
      List.foldl texture_binding_step acc
        (specify_texture_data lb n i w h off rem).2 = acc := by
  intro n
  induction n with
  | zero => intro i w h off rem acc; rfl
  | succ n ih =>
    intro i w h off rem acc
    by_cases hc : lb i ≠ GL_NO_ERROR <;>
      simp [specify_texture_data, hc, texture_binding_step, ih]

/-- Deletion calls do not change the framebuffer binding point. -/
theorem framebuffer_binding_step_deletes (acc : Option Nat) (l : List Nat) :
    List.foldl framebuffer_binding_step acc
      (l.map Event.deleteFramebuffers) = acc := by
  induction l generalizing acc with
  | nil => rfl
  | cons x xs ih => simpa [framebuffer_binding_step] using ih acc

/-- C4: for every backend behavior and every parameter record, after a
buffer, texture, or framebuffer acquisition returns, the binding point
it touched is unbound (0): the binding state reconstructed from the
trace is either untouched or 0, on every exit path. -/
theorem C4_binding_restored :
    (∀ (b : buffer_backend) (p : buffer_parameters),
      (buffer_binding p.type (initialize_buffer b p).2).getD 0 = 0) ∧
    (∀ (b : texture_backend) (p : texture_parameters),
      (texture_binding (initialize_texture b p).2).getD 0 = 0) ∧
    (∀ (b : framebuffer_backend) (p : framebuffer_parameters),
      (framebuffer_binding (initialize_framebuffer b p).2).getD 0 = 0) := by
  refine ⟨?_, ?_, ?_⟩
  · intro b p
    unfold initialize_buffer
    by_cases hsz : static_cast_GLsizeiptr p.bytes_len ≤ 0 ∨
        static_cast_size_t (static_cast_GLsizeiptr p.bytes_len) ≠ p.bytes_len
    · rw [if_pos hsz]
      simp [buffer_binding]
    · rw [if_neg hsz]
      split_ifs <;>
        simp [buffer_binding, buffer_binding_step, List.foldl_append,
          buffer_binding_step_deletes, object.destruct]
  · intro b p
    unfold initialize_texture
    by_cases hval : (p.width ≤ 0 ∨ p.width ≥ 16384) ∨
        (p.height ≤ 0 ∨ p.height ≥ 16384) ∨
        (p.mipmap_count ≤ 0 ∨ p.mipmap_count ≥ 16384)
    · rw [if_pos hval]
      simp [texture_binding]
    · rw [if_neg hval]
      by_cases hg : b.gen_error ≠ GL_NO_ERROR
      · rw [if_pos hg]
        simp [texture_binding, texture_binding_step,
          texture_binding_step_deletes, object.destruct]
      · rw [if_neg hg]
        by_cases hb : b.bind_error ≠ GL_NO_ERROR
        · rw [if_pos hb]
          simp [texture_binding, texture_binding_step, List.foldl_append,
            texture_binding_step_deletes, object.destruct]
        · rw [if_neg hb]
          cases hw : (specify_texture_data b.level_error p.mipmap_count.toNat
              0 p.width.toNat p.height.toNat 0 p.pixels_len).1 <;>
            simp [hw, texture_binding, texture_binding_step,
              List.foldl_append, texture_binding_step_deletes,
              texture_binding_step_walk, object.destruct]
  · intro b p
    unfold initialize_framebuffer
    split_ifs <;>
      simp [framebuffer_binding, framebuffer_binding_step, List.foldl_append,
        framebuffer_binding_step_deletes, object.destruct]

end Rose
